import Mathlib

/-!
Verification development for the excerpted GitLens UI-glue sources:
the SCM grouped-view switcher (`src/views/scmGroupedView.ts`) and the
Launchpad quick-pick wizard (`launchpad.ts`, provided unnamed).

The embedding is shallow: each relevant TypeScript function is translated
into an executable Lean definition; host-toolkit side effects (storage
writes, view disposal/construction, VS Code context updates) are made
explicit as effect lists or state records.
-/

/-! ## SCM grouped view (`scmGroupedView.ts`) -/

/-- The `GroupableTreeViewTypes` union of nine view-type tags. -/
inductive GroupableTreeViewType
  | branches | commits | contributors | remotes | repositories
  | searchAndCompare | stashes | tags | worktrees
deriving DecidableEq, Repr

/-- The nine view classes that `ScmGroupedView.getView` can construct. -/
inductive ViewCtor
  | BranchesView | CommitsView | ContributorsView | RemotesView | RepositoriesView
  | SearchAndCompareView | StashesView | TagsView | WorktreesView
deriving DecidableEq, Repr

/-- Modelled from the spec: the nine view classes (`BranchesView`, …) are
defined outside this excerpt ("nine pre-existing view constructors"); each
instance exposes a `type` tag identifying its class, which
`ScmGroupedView.setView` compares against the requested tag. -/
def ViewCtor.viewType : ViewCtor → GroupableTreeViewType
  | .BranchesView => .branches
  | .CommitsView => .commits
  | .ContributorsView => .contributors
  | .RemotesView => .remotes
  | .RepositoriesView => .repositories
  | .SearchAndCompareView => .searchAndCompare
  | .StashesView => .stashes
  | .TagsView => .tags
  | .WorktreesView => .worktrees

/-- A constructed tree-view object: its class and an allocation identity
(fresh per construction), so that object identity and disposal are
observable in the model. -/
structure TreeView where
  ctor : ViewCtor
  viewId : Nat
deriving DecidableEq, Repr

/-- The `type` property of a view instance. -/
def TreeView.type (v : TreeView) : GroupableTreeViewType := v.ctor.viewType

/-- The mutable state of a `ScmGroupedView` instance together with the
`views.lastSelectedScmGroupedView` persisted setting it writes. -/
structure ScmGroupedViewState where
  included : List GroupableTreeViewType
  lastSelectedScmGroupedView : Option GroupableTreeViewType
  view : Option TreeView
  nextViewId : Nat
deriving DecidableEq, Repr

/-- Observable side effects of `setView`, in program order. -/
inductive ScmEffect
  | persistLastSelected (t : GroupableTreeViewType)
  | setGroupedViewContext (t : GroupableTreeViewType)
  | disposeView (v : TreeView)
  | constructView (t : GroupableTreeViewType)
deriving DecidableEq, Repr

namespace ScmGroupedView

/-- `getView` (the private nine-way switch): constructs the view class for a
tag, e.g. `new BranchesView(this.container, true)`. -/
def getView (t : GroupableTreeViewType) (freshId : Nat) : TreeView :=
  match t with
  | .branches => { ctor := .BranchesView, viewId := freshId }
  | .commits => { ctor := .CommitsView, viewId := freshId }
  | .contributors => { ctor := .ContributorsView, viewId := freshId }
  | .remotes => { ctor := .RemotesView, viewId := freshId }
  | .repositories => { ctor := .RepositoriesView, viewId := freshId }
  | .searchAndCompare => { ctor := .SearchAndCompareView, viewId := freshId }
  | .stashes => { ctor := .StashesView, viewId := freshId }
  | .tags => { ctor := .TagsView, viewId := freshId }
  | .worktrees => { ctor := .WorktreesView, viewId := freshId }

/-- Lines 54–56 of `setView`: `if (!this.included.includes(type)) type =
this.included[0]`. An out-of-range `this.included[0]` (empty `included`)
yields TypeScript `undefined`, modelled as `none`. -/
def setViewFallback (included : List GroupableTreeViewType) (t : GroupableTreeViewType) :
    Option GroupableTreeViewType :=
  if included.contains t then some t else included.head?

/-- `ScmGroupedView.setView`: fall back to `included[0]` for excluded tags,
persist the chosen tag, return the current view unchanged if it already has
that tag, otherwise set the VS Code context, dispose the previous view and
construct the new one.  Returns the view handed back to the caller, the
updated state, and the effect trace; `none` models the undefined-propagating
call on an empty `included` list. -/
def setView (s : ScmGroupedViewState) (t : GroupableTreeViewType) :
    Option (TreeView × ScmGroupedViewState × List ScmEffect) :=
  match setViewFallback s.included t with
  | none => none
  | some ty =>
    let s1 := { s with lastSelectedScmGroupedView := some ty }
    match s.view with
    | some old =>
      if old.type = ty then
        some (old, s1, [ScmEffect.persistLastSelected ty])
      else
        let nv := getView ty s.nextViewId
        some (nv, { s1 with view := some nv, nextViewId := s.nextViewId + 1 },
          [ScmEffect.persistLastSelected ty, ScmEffect.setGroupedViewContext ty,
           ScmEffect.disposeView old, ScmEffect.constructView ty])
    | none =>
      let nv := getView ty s.nextViewId
      some (nv, { s1 with view := some nv, nextViewId := s.nextViewId + 1 },
        [ScmEffect.persistLastSelected ty, ScmEffect.setGroupedViewContext ty,
         ScmEffect.constructView ty])

end ScmGroupedView

theorem ScmGroupedView.getView_type (t : GroupableTreeViewType) (id : Nat) :
    (ScmGroupedView.getView t id).type = t := by
  cases t <;> rfl

/-- C1: if the requested tag is not in the non-empty `included` list,
`setView` behaves exactly as if the first included tag had been requested:
the call is equal to `setView` at that first tag, the first tag is
persisted as the last-selected view, and the view returned carries it. -/
theorem scm_setView_excluded_falls_back_to_first (s : ScmGroupedViewState)
    (t f : GroupableTreeViewType) (rest : List GroupableTreeViewType)
    (hinc : s.included = f :: rest) (hnot : t ∉ s.included) :
    ScmGroupedView.setView s t = ScmGroupedView.setView s f ∧
    ∃ v s' effs, ScmGroupedView.setView s t = some (v, s', effs) ∧
      s'.lastSelectedScmGroupedView = some f ∧ s'.view = some v ∧ v.type = f := by
  have hft : ScmGroupedView.setViewFallback s.included t = some f := by
    rw [ScmGroupedView.setViewFallback, if_neg (by simpa using hnot), hinc]
    rfl
  have hff : ScmGroupedView.setViewFallback s.included f = some f := by
    rw [ScmGroupedView.setViewFallback, if_pos (by simp [hinc])]
  refine ⟨by rw [ScmGroupedView.setView, ScmGroupedView.setView, hft, hff], ?_⟩
  rw [ScmGroupedView.setView, hft]
  cases hv : s.view with
  | none => exact ⟨_, _, _, rfl, rfl, rfl, ScmGroupedView.getView_type f s.nextViewId⟩
  | some old =>
    by_cases hot : old.type = f
    · simp only [if_pos hot]
      exact ⟨_, _, _, rfl, rfl, rfl, hot⟩
    · simp only [if_neg hot]
      exact ⟨_, _, _, rfl, rfl, rfl, ScmGroupedView.getView_type f s.nextViewId⟩

/-- Witness for C1 at a concrete state: requesting the excluded tag
`stashes` is the same call as requesting the first included tag
`branches`. -/
theorem scm_setView_excluded_falls_back_to_first_witness :
    ScmGroupedView.setView
        { included := [.branches, .commits], lastSelectedScmGroupedView := none,
          view := none, nextViewId := 0 } .stashes =
      ScmGroupedView.setView
        { included := [.branches, .commits], lastSelectedScmGroupedView := none,
          view := none, nextViewId := 0 } .branches :=
  (scm_setView_excluded_falls_back_to_first
    { included := [.branches, .commits], lastSelectedScmGroupedView := none,
      view := none, nextViewId := 0 }
    .stashes .branches [.commits] rfl (by decide)).1

/-- C3: `setView` maps each of the nine tags to its corresponding view
constructor; on every call it persists the chosen tag, and on every call
that changes the shown view it disposes the previously held view before
constructing the new one (with the VS Code context update in between). -/
theorem scm_setView_nine_way_dispose_persist (s : ScmGroupedViewState)
    (t ty : GroupableTreeViewType)
    (hty : ScmGroupedView.setViewFallback s.included t = some ty) :
    (∀ id : Nat,
      (ScmGroupedView.getView .branches id).ctor = .BranchesView ∧
      (ScmGroupedView.getView .commits id).ctor = .CommitsView ∧
      (ScmGroupedView.getView .contributors id).ctor = .ContributorsView ∧
      (ScmGroupedView.getView .remotes id).ctor = .RemotesView ∧
      (ScmGroupedView.getView .repositories id).ctor = .RepositoriesView ∧
      (ScmGroupedView.getView .searchAndCompare id).ctor = .SearchAndCompareView ∧
      (ScmGroupedView.getView .stashes id).ctor = .StashesView ∧
      (ScmGroupedView.getView .tags id).ctor = .TagsView ∧
      (ScmGroupedView.getView .worktrees id).ctor = .WorktreesView) ∧
    ∃ v s' effs, ScmGroupedView.setView s t = some (v, s', effs) ∧
      ScmEffect.persistLastSelected ty ∈ effs ∧
      s'.lastSelectedScmGroupedView = some ty ∧
      (∀ old, s.view = some old → old.type ≠ ty →
        effs = [ScmEffect.persistLastSelected ty, ScmEffect.setGroupedViewContext ty,
                ScmEffect.disposeView old, ScmEffect.constructView ty] ∧
        v = ScmGroupedView.getView ty s.nextViewId) ∧
      (s.view = none →
        effs = [ScmEffect.persistLastSelected ty, ScmEffect.setGroupedViewContext ty,
                ScmEffect.constructView ty] ∧
        v = ScmGroupedView.getView ty s.nextViewId) := by
  refine ⟨fun id => ⟨rfl, rfl, rfl, rfl, rfl, rfl, rfl, rfl, rfl⟩, ?_⟩
  rw [ScmGroupedView.setView, hty]
  cases hv : s.view with
  | none =>
    refine ⟨_, _, _, rfl, by simp, rfl, ?_, ?_⟩
    · intro old hold
      cases hold
    · intro _
      exact ⟨rfl, rfl⟩
  | some old =>
    by_cases hot : old.type = ty
    · simp only [if_pos hot]
      refine ⟨_, _, _, rfl, by simp, rfl, ?_, ?_⟩
      · intro o ho hne
        cases ho
        exact absurd hot hne
      · intro h
        cases h
    · simp only [if_neg hot]
      refine ⟨_, _, _, rfl, by simp, rfl, ?_, ?_⟩
      · intro o ho hne
        cases ho
        exact ⟨rfl, rfl⟩
      · intro h
        cases h

/-- Witness for C3 at a concrete state with a shown `commits` view being
switched to `branches`. -/
theorem scm_setView_nine_way_dispose_persist_witness :
    ∃ v s' effs,
      ScmGroupedView.setView
          { included := [.branches, .commits], lastSelectedScmGroupedView := some .commits,
            view := some { ctor := .CommitsView, viewId := 0 }, nextViewId := 1 } .branches =
        some (v, s', effs) ∧
      ScmEffect.persistLastSelected .branches ∈ effs ∧
      s'.lastSelectedScmGroupedView = some .branches ∧
      (∀ old,
        ({ included := [.branches, .commits], lastSelectedScmGroupedView := some .commits,
           view := some { ctor := .CommitsView, viewId := 0 },
           nextViewId := 1 } : ScmGroupedViewState).view = some old →
        old.type ≠ .branches →
        effs = [ScmEffect.persistLastSelected .branches, ScmEffect.setGroupedViewContext .branches,
                ScmEffect.disposeView old, ScmEffect.constructView .branches] ∧
        v = ScmGroupedView.getView .branches 1) ∧
      (({ included := [.branches, .commits], lastSelectedScmGroupedView := some .commits,
          view := some { ctor := .CommitsView, viewId := 0 },
          nextViewId := 1 } : ScmGroupedViewState).view = none →
        effs = [ScmEffect.persistLastSelected .branches, ScmEffect.setGroupedViewContext .branches,
                ScmEffect.constructView .branches] ∧
        v = ScmGroupedView.getView .branches 1) :=
  (scm_setView_nine_way_dispose_persist
    { included := [.branches, .commits], lastSelectedScmGroupedView := some .commits,
      view := some { ctor := .CommitsView, viewId := 0 }, nextViewId := 1 }
    .branches .branches (by decide)).2

/-- C8: when the tag chosen after fallback is already the shown view's tag,
`setView` re-persists the tag and returns the existing view object
unchanged — no disposal, no context update, no construction. -/
theorem scm_setView_idempotent_on_shown_type (s : ScmGroupedViewState)
    (t ty : GroupableTreeViewType) (v : TreeView)
    (hty : ScmGroupedView.setViewFallback s.included t = some ty)
    (hv : s.view = some v) (hvt : v.type = ty) :
    ScmGroupedView.setView s t =
      some (v, { s with lastSelectedScmGroupedView := some ty },
        [ScmEffect.persistLastSelected ty]) := by
  rw [ScmGroupedView.setView, hty, hv]
  simp only [if_pos hvt]

/-- Witness for C8: re-selecting the shown `branches` view returns the same
view object with only the persistence effect. -/
theorem scm_setView_idempotent_on_shown_type_witness :
    ScmGroupedView.setView
        { included := [.branches, .commits], lastSelectedScmGroupedView := some .branches,
          view := some { ctor := .BranchesView, viewId := 3 }, nextViewId := 4 } .branches =
      some ({ ctor := .BranchesView, viewId := 3 },
        { included := [.branches, .commits], lastSelectedScmGroupedView := some .branches,
          view := some { ctor := .BranchesView, viewId := 3 }, nextViewId := 4 },
        [ScmEffect.persistLastSelected .branches]) :=
  scm_setView_idempotent_on_shown_type
    { included := [.branches, .commits], lastSelectedScmGroupedView := some .branches,
      view := some { ctor := .BranchesView, viewId := 3 }, nextViewId := 4 }
    .branches .branches { ctor := .BranchesView, viewId := 3 } (by decide) rfl rfl

/-! ## Launchpad wizard (`launchpad.ts`) -/

/-- A Launchpad pull-request summary record.  The full record is supplied by
the launchpad provider collaborator; the model keeps the identity used by
the picker (`id`) and the Launchpad group the provider categorized the item
into, which is all the excerpt's control flow inspects. -/
structure LaunchpadItem where
  id : String
  group : String
deriving DecidableEq, Repr

/-- An error carried by a `LaunchpadCategorizedResult`: its constructor
`name`, its `status` when the error has a numeric `status` property, and
the text produced by JavaScript `String(error)`. -/
structure LaunchpadError where
  name : String
  status : Option Int
  str : String
deriving DecidableEq, Repr

/-- `LaunchpadCategorizedResult`: the items list together with an optional
error from the PR-data collaborator. -/
structure LaunchpadCategorizedResult where
  items : List LaunchpadItem
  error : Option LaunchpadError := none
deriving DecidableEq, Repr

/-- Modelled from the spec: `launchpadGroups` (from the launchpad provider
collaborator, not part of this excerpt) enumerates the known Launchpad
group ids — the groups this excerpt names (`draft`, `other`, `snoozed`,
`mergeable`, `blocked`, `follow-up`, `needs-review`) among them. -/
def launchpadGroups : List String :=
  ["current-branch", "pinned", "mergeable", "blocked", "follow-up",
   "needs-review", "waiting-for-review", "draft", "other", "snoozed"]

/-- `defaultCollapsedGroups`: the groups collapsed when nothing is stored. -/
def defaultCollapsedGroups : List String := ["draft", "other", "snoozed"]

/-- JavaScript `Map` modelled as an insertion-ordered association list.
`Map.set` overwrites in place or appends a fresh key. -/
def mapSet (m : List (String × Bool)) (k : String) (v : Bool) : List (String × Bool) :=
  if m.any (fun p => p.1 == k) then
    m.map (fun p => if p.1 == k then (k, v) else p)
  else m ++ [(k, v)]

/-- `Map.get`: `none` models JavaScript `undefined`. -/
def mapGet (m : List (String × Bool)) (k : String) : Option Bool :=
  (m.find? (fun p => p.1 == k)).map (fun p => p.2)

/-- `Map.keys()` in insertion order. -/
def mapKeys (m : List (String × Bool)) : List String := m.map Prod.fst

/-- The wizard's per-invocation `State` record. -/
structure LaunchpadState where
  item : Option LaunchpadItem := none
  action : Option String := none
  initialGroup : Option String := none
  selectTopItem : Option Bool := none
deriving DecidableEq, Repr

/-- The wizard's per-invocation `Context` record (the telemetry accumulator
is omitted; it is not persistent state). -/
structure LaunchpadContext where
  result : LaunchpadCategorizedResult
  title : String := ""
  collapsed : List (String × Bool) := []
  connectedIntegrations : List (String × Bool) := []
deriving DecidableEq, Repr

/-- `LaunchpadCommand.steps` lines 208–221: read the stored collapsed groups
(falling back to `defaultCollapsedGroups`), build the collapsed map from
them, then — when an initial group was requested — set every known group to
collapsed except the initial group. -/
def initCollapsed (stored : Option (List String)) (initialGroup : Option String) :
    List (String × Bool) :=
  let storedCollapsed := stored.getD defaultCollapsedGroups
  let m := storedCollapsed.foldl (fun m g => mapSet m g true) []
  match initialGroup with
  | none => m
  | some ig => launchpadGroups.foldl (fun m g => mapSet m g (g != ig)) m

/-- The collapsed-map update performed by a group heading's `onDidSelect`:
flip the group's collapsed flag. -/
def toggleGroup (m : List (String × Bool)) (ui : String) : List (String × Bool) :=
  mapSet m ui (!((mapGet m ui).getD false))

/-- A value written to the key-value storage collaborator. -/
inductive StorageValue
  | groups (gs : List String)
  | timestamp (t : String)
deriving DecidableEq, Repr

/-- A single write to the key-value storage collaborator. -/
structure StorageWrite where
  key : String
  value : StorageValue
deriving DecidableEq, Repr

/-- `buildGroupHeading`'s `onDidSelect` handler: toggle the group's
collapsed flag in the in-memory map and — only when the wizard was opened
without an initial group — store the collapsed group list under
`launchpad:groups:collapsed`.  Returns the updated context and the storage
writes performed. -/
def onGroupHeadingSelect (state : LaunchpadState) (context : LaunchpadContext)
    (ui : String) : LaunchpadContext × List StorageWrite :=
  let collapsed := !((mapGet context.collapsed ui).getD false)
  let m := mapSet context.collapsed ui collapsed
  let writes :=
    if state.initialGroup = none then
      [{ key := "launchpad:groups:collapsed",
         value := StorageValue.groups
           ((mapKeys m).filter (fun g => (mapGet m g).getD false)) }]
    else []
  ({ context with collapsed := m }, writes)

/-- The `LaunchpadCommand` constructor's storage behaviour (lines 163–168):
store an interaction timestamp under `launchpad:indicator:hasInteracted`
when invoked from the launchpad indicator and no timestamp is stored yet. -/
def constructorStorageWrites (source : Option String)
    (storedHasInteracted : Option String) (now : String) : List StorageWrite :=
  if source = some "launchpad-indicator" ∧ storedHasInteracted = none then
    [{ key := "launchpad:indicator:hasInteracted", value := StorageValue.timestamp now }]
  else []

/-- The storage-writing events a Launchpad wizard invocation can perform:
its construction and any number of group-heading toggles.  No other code
path in the excerpt calls `storage.store`. -/
inductive WizardEvent
  | construct (source : Option String) (storedHasInteracted : Option String) (now : String)
  | groupToggle (state : LaunchpadState) (context : LaunchpadContext) (ui : String)

/-- The storage writes performed by one wizard event. -/
def WizardEvent.storageWrites : WizardEvent → List StorageWrite
  | .construct source stored now => constructorStorageWrites source stored now
  | .groupToggle state context ui => (onGroupHeadingSelect state context ui).2

/-- All storage writes across a complete wizard invocation, in order. -/
def wizardStorageWrites (evs : List WizardEvent) : List StorageWrite :=
  (evs.map WizardEvent.storageWrites).flatten

/-- The two settings keys the Launchpad wizard persists to. -/
def launchpadStorageKeys : List String :=
  ["launchpad:groups:collapsed", "launchpad:indicator:hasInteracted"]

/-- An entry of the Launchpad quick-pick's item list: separators, directive
items (the group headings reload, `Cancel`/`OK`, no-ops) and pull-request
items built by `buildLaunchpadQuickPickItem`. -/
inductive PickerItem
  | separator (label : Option String)
  | groupHeading (group : String) (collapsed : Bool)
  | cancelDirective (label : String)
  | prItem (item : LaunchpadItem) (group : String) (alwaysShow : Bool)
deriving DecidableEq, Repr

/-- Is this entry a pull-request item? -/
def PickerItem.isPullRequestItem : PickerItem → Bool
  | .prItem _ _ _ => true
  | _ => false

/-- The searchable id of an entry (`'item' in i && i.item?.id`), `none` for
directive entries whose `item` is `undefined`. -/
def PickerItem.itemId : PickerItem → Option String
  | .prItem i _ _ => some i.id
  | _ => none

/-- Modelled from the spec: `groupAndSortLaunchpadItems` (launchpad provider
collaborator, not part of this excerpt) groups "a list of pull-request
summaries for display" — a map from each known group id to the items the
provider categorized into it. -/
def groupAndSortLaunchpadItems (items : List LaunchpadItem) :
    List (String × List LaunchpadItem) :=
  launchpadGroups.map (fun g => (g, items.filter (fun i => i.group == g)))

/-- The pure item-building part of `buildGroupHeading`: a separator carrying
the group size and the collapsible heading directive. -/
def buildGroupHeadingItems (collapsedMap : List (String × Bool)) (ui : String)
    (groupLength : Nat) : List PickerItem :=
  [PickerItem.separator (if groupLength ≠ 0 then some (toString groupLength) else none),
   PickerItem.groupHeading ui ((mapGet collapsedMap ui).getD false)]

/-- `getItems`: group the result's items, then per non-empty group emit the
heading (unless searching), skip the group's items when it is collapsed,
and emit a quick-pick item per remaining item. -/
def getItems (collapsedMap : List (String × Bool)) (result : LaunchpadCategorizedResult)
    (isSearching : Bool) : List PickerItem :=
  if result.items.isEmpty then []
  else
    (groupAndSortLaunchpadItems result.items).foldl
      (fun acc p =>
        let ui := p.1
        let groupItems := p.2
        if groupItems.isEmpty then acc
        else if !isSearching then
          let acc := acc ++ buildGroupHeadingItems collapsedMap ui groupItems.length
          if (mapGet collapsedMap ui).getD false then acc
          else acc ++ groupItems.map (fun i => PickerItem.prItem i ui isSearching)
        else acc ++ groupItems.map (fun i => PickerItem.prItem i ui isSearching))
      []

/-- The pair returned by `getItemsAndPlaceholder`. -/
structure ItemsAndPlaceholder where
  placeholder : String
  items : List PickerItem
deriving DecidableEq, Repr

/-- `getItemsAndPlaceholder`: an error result yields the
`Unable to load items (…)` placeholder (prefixing the status for
`HttpError`s carrying a numeric status) and a single Cancel directive
labelled `OK`; an empty result yields the vacation placeholder and the same
single directive; otherwise the grouped items are shown. -/
def getItemsAndPlaceholder (context : LaunchpadContext) (isSearching : Bool) :
    ItemsAndPlaceholder :=
  match context.result.error with
  | some e =>
    { placeholder := "Unable to load items (" ++
        (if e.name = "HttpError" ∧ e.status.isSome then
          toString (e.status.getD 0) ++ ": " ++ e.str
         else e.str) ++ ")",
      items := [PickerItem.cancelDirective "OK"] }
  | none =>
    if context.result.items.isEmpty then
      { placeholder := "All done! Take a vacation",
        items := [PickerItem.cancelDirective "OK"] }
    else
      { placeholder := "Choose an item, type a term to search, or paste in a PR URL",
        items := getItems context.collapsed context.result isSearching }

/-- `combineQuickpickItemsWithSearchResults`: keep the existing entries and
append those new entries that carry an item id not already present. -/
def combineQuickpickItemsWithSearchResults (arr items : List PickerItem) :
    List PickerItem :=
  let ids := arr.filterMap PickerItem.itemId
  arr ++ items.filter (fun i =>
    match i.itemId with
    | some id => id != "" && !(ids.contains id)
    | none => false)

/-- The visible pieces of quick-pick state `updateItems` can touch. -/
structure QuickPickState where
  items : List PickerItem
  placeholder : String
  busy : Bool
  value : String
deriving DecidableEq, Repr

/-- The debounce interval handed to `createAsyncDebouncer` for the
search-triggered refresh (`updateItemsDebouncer`). -/
def updateItemsDebounceIntervalMs : Nat := 500

/-- The debounced body of `updateItems`: after the context refresh, a
request whose cancellation token is already cancelled returns before
touching the quick-pick (only the `finally` clears `busy`); otherwise the
placeholder and items are replaced (merged with the previous items while a
search term is present). -/
def updateItemsModel (quickpick : QuickPickState) (fetched : LaunchpadContext)
    (cancelled : Bool) : QuickPickState :=
  let search := quickpick.value
  let qp := { quickpick with busy := true }
  if cancelled then { qp with busy := false }
  else
    let r := getItemsAndPlaceholder fetched (search != "")
    let newItems :=
      if search != "" then combineQuickpickItemsWithSearchResults qp.items r.items
      else r.items
    { qp with placeholder := r.placeholder, items := newItems, busy := false }

/-- Options passed to the launchpad collaborator's `switchTo`. -/
structure SwitchToOptions where
  skipWorktreeConfirmations : Bool := false
  startCodeSuggestion : Bool := false
deriving DecidableEq, Repr

/-- A call into the launchpad collaborator dispatched for a selected
action. -/
inductive LaunchpadCall
  | merge (item : LaunchpadItem)
  | openItem (item : LaunchpadItem)
  | switchTo (item : LaunchpadItem) (opts : Option SwitchToOptions)
  | openChanges (item : LaunchpadItem)
  | openInGraph (item : LaunchpadItem)
  | openCodeSuggestion (item : LaunchpadItem) (target : String)
deriving DecidableEq, Repr

/-- A selected action: either a plain `LaunchpadAction` string or a
`LaunchpadTargetAction` record carrying a target. -/
inductive StateAction
  | str (action : String)
  | targeted (action : String) (target : String)
deriving DecidableEq, Repr

/-- The action dispatch switch of `LaunchpadCommand.steps` (lines 329–366):
the collaborator calls made for the selected item and action. -/
def dispatchAction (item : LaunchpadItem) : StateAction → List LaunchpadCall
  | .str a =>
    match a with
    | "merge" => [.merge item]
    | "open" => [.openItem item]
    | "soft-open" => [.openItem item]
    | "switch" => [.switchTo item none]
    | "show-overview" => [.switchTo item none]
    | "open-worktree" => [.switchTo item (some { skipWorktreeConfirmations := true })]
    | "switch-and-code-suggest" => [.switchTo item (some { startCodeSuggestion := true })]
    | "code-suggest" => [.switchTo item (some { startCodeSuggestion := true })]
    | "open-changes" => [.openChanges item]
    | "open-in-graph" => [.openInGraph item]
    | _ => []
  | .targeted a t =>
    match a with
    | "open-suggestion" => [.openCodeSuggestion item t]
    | _ => []

/-! ## Theorems about the Launchpad wizard -/

theorem mem_mapKeys_mapSet (m : List (String × Bool)) (k : String) (v : Bool) (x : String)
    (hx : x ∈ mapKeys (mapSet m k v)) : x ∈ mapKeys m ∨ x = k := by
  unfold mapSet at hx
  unfold mapKeys at hx ⊢
  split at hx
  · simp only [List.map_map, List.mem_map, Function.comp] at hx
    obtain ⟨p, hp, hpx⟩ := hx
    by_cases hpk : p.1 == k
    · rw [if_pos hpk] at hpx
      right
      rw [← hpx]
    · rw [if_neg hpk] at hpx
      exact Or.inl (List.mem_map.mpr ⟨p, hp, hpx⟩)
  · simp only [List.map_append, List.mem_append, List.map_cons, List.map_nil,
      List.mem_singleton] at hx
    rcases hx with h1 | h2
    · exact Or.inl h1
    · exact Or.inr h2

theorem mapKeys_foldl_subset (S : List String)
    (step : List (String × Bool) → String → List (String × Bool))
    (hstep : ∀ m g x, x ∈ mapKeys (step m g) → x ∈ mapKeys m ∨ x = g)
    (gs : List String) :
    ∀ (m : List (String × Bool)),
      (∀ x ∈ mapKeys m, x ∈ S) → (∀ g ∈ gs, g ∈ S) →
      ∀ x ∈ mapKeys (gs.foldl step m), x ∈ S := by
  induction gs with
  | nil =>
    intro m hm _ x hx
    exact hm x hx
  | cons g gs ih =>
    intro m hm hgs x hx
    rw [List.foldl_cons] at hx
    refine ih (step m g) ?_ ?_ x hx
    · intro y hy
      rcases hstep m g y hy with h | h
      · exact hm y h
      · exact h ▸ hgs g (List.mem_cons_self g gs)
    · intro y hy
      exact hgs y (List.mem_cons_of_mem g hy)

/-- C4: the collapsed-group map contains only known Launchpad group ids —
after initialization from stored/default collapsed groups and from an
initial group, and after any sequence of group-heading toggles (headings
are built only for known groups). -/
theorem launchpad_collapsed_keys_known (stored : Option (List String))
    (initialGroup : Option String) (toggles : List String)
    (hstored : ∀ l, stored = some l → ∀ g ∈ l, g ∈ launchpadGroups)
    (htoggles : ∀ g ∈ toggles, g ∈ launchpadGroups) :
    ∀ k ∈ mapKeys (toggles.foldl toggleGroup (initCollapsed stored initialGroup)),
      k ∈ launchpadGroups := by
  have hstored' : ∀ g ∈ stored.getD defaultCollapsedGroups, g ∈ launchpadGroups := by
    cases stored with
    | none => decide
    | some l => exact hstored l rfl
  have hbase : ∀ k ∈ mapKeys
      ((stored.getD defaultCollapsedGroups).foldl (fun m g => mapSet m g true) []),
      k ∈ launchpadGroups :=
    mapKeys_foldl_subset launchpadGroups (fun m g => mapSet m g true)
      (fun m g x hx => mem_mapKeys_mapSet m g true x hx) _ []
      (by simp [mapKeys]) hstored'
  have hinit : ∀ k ∈ mapKeys (initCollapsed stored initialGroup), k ∈ launchpadGroups := by
    unfold initCollapsed
    cases initialGroup with
    | none => exact hbase
    | some ig =>
      exact mapKeys_foldl_subset launchpadGroups (fun m g => mapSet m g (g != ig))
        (fun m g x hx => mem_mapKeys_mapSet m g _ x hx) launchpadGroups _
        hbase (fun g hg => hg)
  exact mapKeys_foldl_subset launchpadGroups toggleGroup
    (fun m g x hx => mem_mapKeys_mapSet m g _ x hx) toggles _ hinit htoggles

/-- Witness for C4 at concrete inputs: with `["draft"]` stored as collapsed,
no initial group and no toggles, the known key `draft` is produced by the
collapsed map. -/
theorem launchpad_collapsed_keys_known_witness : "draft" ∈ launchpadGroups :=
  launchpad_collapsed_keys_known (some ["draft"]) none []
    (by intro l h; cases h; decide) (by decide)
    "draft" (by decide)

/-- C5: every storage write performed across a complete wizard invocation —
the constructor's interaction timestamp and the group-toggle collapsed
list — targets one of the two settings keys
`launchpad:groups:collapsed` and `launchpad:indicator:hasInteracted`. -/
theorem launchpad_storage_frame (evs : List WizardEvent) (w : StorageWrite)
    (hw : w ∈ wizardStorageWrites evs) : w.key ∈ launchpadStorageKeys := by
  unfold wizardStorageWrites at hw
  rw [List.mem_flatten] at hw
  obtain ⟨l, hl, hwl⟩ := hw
  rw [List.mem_map] at hl
  obtain ⟨e, _, hle⟩ := hl
  subst hle
  cases e with
  | construct source stored now =>
    simp only [WizardEvent.storageWrites, constructorStorageWrites] at hwl
    split at hwl
    · simp only [List.mem_singleton] at hwl
      subst hwl
      simp [launchpadStorageKeys]
    · simp at hwl
  | groupToggle st ctx ui =>
    simp only [WizardEvent.storageWrites, onGroupHeadingSelect] at hwl
    split at hwl
    · simp only [List.mem_singleton] at hwl
      subst hwl
      simp [launchpadStorageKeys]
    · simp at hwl

/-- Witness for C5: the constructor write of a launchpad-indicator-sourced
invocation targets an allowed key. -/
theorem launchpad_storage_frame_witness :
    ({ key := "launchpad:indicator:hasInteracted",
       value := StorageValue.timestamp "2024-01-01" } : StorageWrite).key
      ∈ launchpadStorageKeys :=
  launchpad_storage_frame
    [WizardEvent.construct (some "launchpad-indicator") none "2024-01-01"]
    { key := "launchpad:indicator:hasInteracted",
      value := StorageValue.timestamp "2024-01-01" }
    (by simp [wizardStorageWrites, WizardEvent.storageWrites, constructorStorageWrites])

/-- C2: when the current result carries an error, the picker shows the
`Unable to load items (…)` placeholder containing the stringified error
(prefixed by the HTTP status for `HttpError`s with a numeric status), and
the item list is exactly one Cancel directive labelled `OK` — no
pull-request items. -/
theorem launchpad_error_items_placeholder (context : LaunchpadContext)
    (e : LaunchpadError) (isSearching : Bool)
    (h : context.result.error = some e) :
    (getItemsAndPlaceholder context isSearching).items =
      [PickerItem.cancelDirective "OK"] ∧
    (getItemsAndPlaceholder context isSearching).placeholder =
      "Unable to load items (" ++
        (if e.name = "HttpError" ∧ e.status.isSome then
          toString (e.status.getD 0) ++ ": " ++ e.str
         else e.str) ++ ")" ∧
    (∃ pre, (getItemsAndPlaceholder context isSearching).placeholder =
      "Unable to load items (" ++ pre ++ e.str ++ ")") ∧
    ∀ i ∈ (getItemsAndPlaceholder context isSearching).items,
      i.isPullRequestItem = false := by
  have hmain : getItemsAndPlaceholder context isSearching =
      { placeholder := "Unable to load items (" ++
          (if e.name = "HttpError" ∧ e.status.isSome then
            toString (e.status.getD 0) ++ ": " ++ e.str
           else e.str) ++ ")",
        items := [PickerItem.cancelDirective "OK"] } := by
    simp only [getItemsAndPlaceholder, h]
  refine ⟨by rw [hmain], by rw [hmain], ?_, ?_⟩
  · rw [hmain]
    by_cases hc : e.name = "HttpError" ∧ e.status.isSome
    · refine ⟨toString (e.status.getD 0) ++ ": ", ?_⟩
      show ("Unable to load items (" ++
          (if e.name = "HttpError" ∧ e.status.isSome then
            toString (e.status.getD 0) ++ ": " ++ e.str
           else e.str) ++ ")") = _
      rw [if_pos hc]
      simp [String.append_assoc]
    · refine ⟨"", ?_⟩
      show ("Unable to load items (" ++
          (if e.name = "HttpError" ∧ e.status.isSome then
            toString (e.status.getD 0) ++ ": " ++ e.str
           else e.str) ++ ")") = _
      rw [if_neg hc]
      simp
  · rw [hmain]
    intro i hi
    simp only [List.mem_singleton] at hi
    subst hi
    rfl

/-- The concrete error-carrying result used by the C2 witness. -/
def launchpadHttpErrorContext : LaunchpadContext :=
  { result := { items := [],
                error := some { name := "HttpError", status := some 404,
                                str := "HttpError: Not Found" } } }

/-- Witness for C2 at a concrete 404 `HttpError` result. -/
theorem launchpad_error_items_placeholder_witness :
    (getItemsAndPlaceholder launchpadHttpErrorContext false).items =
      [PickerItem.cancelDirective "OK"] :=
  (launchpad_error_items_placeholder launchpadHttpErrorContext
    { name := "HttpError", status := some 404, str := "HttpError: Not Found" }
    false rfl).1

/-- C9: an error-free result with an empty item list yields the
`All done! Take a vacation` placeholder and exactly one Cancel directive
labelled `OK`. -/
theorem launchpad_empty_result_vacation (context : LaunchpadContext) (isSearching : Bool)
    (herr : context.result.error = none) (hitems : context.result.items = []) :
    getItemsAndPlaceholder context isSearching =
      { placeholder := "All done! Take a vacation",
        items := [PickerItem.cancelDirective "OK"] } ∧
    ∀ i ∈ (getItemsAndPlaceholder context isSearching).items,
      i.isPullRequestItem = false := by
  have hmain : getItemsAndPlaceholder context isSearching =
      { placeholder := "All done! Take a vacation",
        items := [PickerItem.cancelDirective "OK"] } := by
    simp only [getItemsAndPlaceholder, herr, hitems, List.isEmpty_nil, if_true]
  refine ⟨hmain, ?_⟩
  rw [hmain]
  intro i hi
  simp only [List.mem_singleton] at hi
  subst hi
  rfl

/-- Witness for C9 at a concrete empty, error-free result. -/
theorem launchpad_empty_result_vacation_witness :
    getItemsAndPlaceholder { result := { items := [], error := none } } false =
      { placeholder := "All done! Take a vacation",
        items := [PickerItem.cancelDirective "OK"] } :=
  (launchpad_empty_result_vacation { result := { items := [], error := none } }
    false rfl rfl).1

/-- C6: a selected string action dispatches exactly the collaborator method
the claim names, and the target action `open-suggestion` dispatches
`openCodeSuggestion` with the action's target. -/
theorem launchpad_action_dispatch (item : LaunchpadItem) (t : String) :
    dispatchAction item (.str "merge") = [.merge item] ∧
    dispatchAction item (.str "open") = [.openItem item] ∧
    dispatchAction item (.str "soft-open") = [.openItem item] ∧
    dispatchAction item (.str "switch") = [.switchTo item none] ∧
    dispatchAction item (.str "show-overview") = [.switchTo item none] ∧
    dispatchAction item (.str "open-worktree") =
      [.switchTo item (some { skipWorktreeConfirmations := true })] ∧
    dispatchAction item (.str "switch-and-code-suggest") =
      [.switchTo item (some { startCodeSuggestion := true })] ∧
    dispatchAction item (.str "code-suggest") =
      [.switchTo item (some { startCodeSuggestion := true })] ∧
    dispatchAction item (.str "open-changes") = [.openChanges item] ∧
    dispatchAction item (.str "open-in-graph") = [.openInGraph item] ∧
    dispatchAction item (.targeted "open-suggestion" t) =
      [.openCodeSuggestion item t] :=
  ⟨rfl, rfl, rfl, rfl, rfl, rfl, rfl, rfl, rfl, rfl, rfl⟩

/-- C7: the search-triggered refresh is debounced at a fixed 500 ms
interval, and a request observed as cancelled after the context refresh
leaves the quick-pick's items and placeholder (and value) unchanged. -/
theorem launchpad_update_items_cancelled (quickpick : QuickPickState)
    (fetched : LaunchpadContext) :
    (updateItemsModel quickpick fetched true).items = quickpick.items ∧
    (updateItemsModel quickpick fetched true).placeholder = quickpick.placeholder ∧
    (updateItemsModel quickpick fetched true).value = quickpick.value ∧
    updateItemsDebounceIntervalMs = 500 :=
  ⟨rfl, rfl, rfl, rfl⟩

/-- C10: a group-heading toggle updates the in-memory collapsed map, and
writes the updated collapsed list to storage exactly when the wizard was
opened without an initial group; with an initial group present it performs
no storage write. -/
theorem launchpad_toggle_storage_conditional (state : LaunchpadState)
    (context : LaunchpadContext) (ui : String) :
    (onGroupHeadingSelect state context ui).1.collapsed =
      toggleGroup context.collapsed ui ∧
    (state.initialGroup ≠ none → (onGroupHeadingSelect state context ui).2 = []) ∧
    (state.initialGroup = none →
      (onGroupHeadingSelect state context ui).2 =
        [{ key := "launchpad:groups:collapsed",
           value := StorageValue.groups
             ((mapKeys (toggleGroup context.collapsed ui)).filter
               (fun g => (mapGet (toggleGroup context.collapsed ui) g).getD false)) }]) := by
  unfold onGroupHeadingSelect toggleGroup
  refine ⟨rfl, ?_, ?_⟩
  · intro h
    simp only [if_neg h]
  · intro h
    simp only [if_pos h]

/-- Witness for C10: with an initial group present, a toggle performs no
storage write. -/
theorem launchpad_toggle_storage_conditional_witness :
    (onGroupHeadingSelect { initialGroup := some "mergeable" }
        { result := { items := [] }, collapsed := [] } "draft").2 = [] :=
  (launchpad_toggle_storage_conditional { initialGroup := some "mergeable" }
    { result := { items := [] }, collapsed := [] } "draft").2.1 (by simp)
